import Mathlib

/-
  Verification of the TowerGuard feature-aggregation and scoring pipeline.

  Shallow embedding of the Python sources:
    backend/app/ml/scoring.py                  (rule-based health scoring)
    backend/app/ml/feature_pipeline.py         (feature extraction / aggregation)
    backend/app/ml/environmental_api_client.py (HTTP retry client, source clients)
    backend/app/ml/models.py                   (learned linear model wrapper)
    backend/ml/features.py                     (SiteFeatures container)

  Python floats are modelled as rationals; Python None as Option.none.
-/

namespace TowerGuard

/-
  ===========================================================================
  Scoring rules (scoring.py, SCORING_RULES)
  ===========================================================================
-/

structure ScoringRule where
  featureName : String
  condition : String
  pointsIfMet : ℚ
  pointsIfNotMet : ℚ
deriving DecidableEq

def defaultScoringRule : ScoringRule :=
  { featureName := "", condition := "", pointsIfMet := 0, pointsIfNotMet := 0 }

def SCORING_RULES : List ScoringRule :=
  [ { featureName := "ndvi_mean", condition := "NDVI mean > 0.5",
      pointsIfMet := 40, pointsIfNotMet := 0 },
    { featureName := "ndvi_std", condition := "NDVI std < 0.2",
      pointsIfMet := 10, pointsIfNotMet := 0 },
    { featureName := "rainfall_mm", condition := "Rainfall > 120 mm",
      pointsIfMet := 20, pointsIfNotMet := 0 },
    { featureName := "temp_mean_c", condition := "Temperature 15-25 C",
      pointsIfMet := 20, pointsIfNotMet := 0 },
    { featureName := "elevation_m", condition := "Elevation 1500-3000 m",
      pointsIfMet := 10, pointsIfNotMet := 0 } ]

def MAX_POINTS : ℚ := (SCORING_RULES.map (fun r => r.pointsIfMet)).sum

/-
  ===========================================================================
  Health categories (scoring.py, HEALTH_CATEGORIES / get_health_category)
  ===========================================================================
-/

structure HealthCategory where
  name : String
  description : String
  minScore : ℚ
  maxScore : ℚ
deriving DecidableEq

def categoryCritical : HealthCategory :=
  { name := "Critical",
    description := "Severe environmental degradation; immediate intervention needed",
    minScore := 0.0, maxScore := 0.2 }

def categoryPoor : HealthCategory :=
  { name := "Poor",
    description := "Significant environmental stress; corrective action required",
    minScore := 0.2, maxScore := 0.4 }

def categoryFair : HealthCategory :=
  { name := "Fair",
    description := "Moderate environmental conditions; monitoring recommended",
    minScore := 0.4, maxScore := 0.6 }

def categoryGood : HealthCategory :=
  { name := "Good",
    description := "Healthy environmental conditions; favorable for ecosystem",
    minScore := 0.6, maxScore := 0.8 }

def categoryExcellent : HealthCategory :=
  { name := "Excellent",
    description := "Optimal environmental conditions; model water tower status",
    minScore := 0.8, maxScore := 1.0 }

def HEALTH_CATEGORIES : List HealthCategory :=
  [categoryCritical, categoryPoor, categoryFair, categoryGood, categoryExcellent]

/-- The loop condition of get_health_category: the inclusive band test
category.min_score <= score <= category.max_score. -/
def bandContains (s : ℚ) (c : HealthCategory) : Bool :=
  decide (c.minScore ≤ s) && decide (s ≤ c.maxScore)

/-- Embedding of get_health_category: clamp to [0,1], then return the first
category whose inclusive [min_score, max_score] band contains the score,
falling back to the last category. -/
def getHealthCategory (score : ℚ) : HealthCategory :=
  let s := max 0 (min 1 score)
  match HEALTH_CATEGORIES.find? (bandContains s) with
  | some c => c
  | none => HEALTH_CATEGORIES.getLastD categoryExcellent

/-
  ===========================================================================
  Rule application (scoring.py, apply_*_rule)
  Each returns (points_earned, is-met flag); the flag is none when the
  feature is unavailable (explanation strings are elided from the model).
  ===========================================================================
-/

def applyNdviMeanRule (ndviMean : Option ℚ) : ℚ × Option Bool :=
  match ndviMean with
  | none => (0, none)
  | some v =>
    let rule := SCORING_RULES.getD 0 defaultScoringRule
    let met := decide (v > 0.5)
    ((if met then rule.pointsIfMet else rule.pointsIfNotMet), some met)

def applyNdviStdRule (ndviStd : Option ℚ) : ℚ × Option Bool :=
  match ndviStd with
  | none => (0, none)
  | some v =>
    let rule := SCORING_RULES.getD 1 defaultScoringRule
    let met := decide (v < 0.2)
    ((if met then rule.pointsIfMet else rule.pointsIfNotMet), some met)

def applyRainfallRule (rainfallMm : Option ℚ) : ℚ × Option Bool :=
  match rainfallMm with
  | none => (0, none)
  | some v =>
    let rule := SCORING_RULES.getD 2 defaultScoringRule
    let met := decide (v > 120)
    ((if met then rule.pointsIfMet else rule.pointsIfNotMet), some met)

def applyTemperatureRule (tempMeanC : Option ℚ) : ℚ × Option Bool :=
  match tempMeanC with
  | none => (0, none)
  | some v =>
    let rule := SCORING_RULES.getD 3 defaultScoringRule
    let met := decide (15 ≤ v ∧ v ≤ 25)
    ((if met then rule.pointsIfMet else rule.pointsIfNotMet), some met)

def applyElevationRule (elevationM : Option ℚ) : ℚ × Option Bool :=
  match elevationM with
  | none => (0, none)
  | some v =>
    let rule := SCORING_RULES.getD 4 defaultScoringRule
    let met := decide (1500 ≤ v ∧ v ≤ 3000)
    ((if met then rule.pointsIfMet else rule.pointsIfNotMet), some met)

/-
  ===========================================================================
  SiteFeatures (backend/ml/features.py) and compute_health_score (scoring.py)
  ===========================================================================
-/

structure SiteFeatures where
  siteId : String
  ndviMean : Option ℚ := none
  ndviStd : Option ℚ := none
  ndviValidPixelRatio : Option ℚ := none
  rainfallMm : Option ℚ := none
  tempMeanC : Option ℚ := none
  elevationM : Option ℚ := none
deriving DecidableEq

structure RuleResult where
  rule : String
  featureValue : Option ℚ
  met : Option Bool
  pointsEarned : ℚ
deriving DecidableEq

def defaultRuleResult : RuleResult :=
  { rule := "", featureValue := none, met := none, pointsEarned := 0 }

structure ScoreResult where
  siteId : String
  rawPoints : ℚ
  maxPoints : ℚ
  healthScore : ℚ
  categoryName : String
  categoryDescription : String
  ruleResults : List RuleResult
deriving DecidableEq

/-- Embedding of compute_health_score: apply the five rules in order, sum the
earned points, normalize by MAX_POINTS and categorize. The timestamp field
and log lines are elided. -/
def computeHealthScore (f : SiteFeatures) : ScoreResult :=
  let r1 := applyNdviMeanRule f.ndviMean
  let r2 := applyNdviStdRule f.ndviStd
  let r3 := applyRainfallRule f.rainfallMm
  let r4 := applyTemperatureRule f.tempMeanC
  let r5 := applyElevationRule f.elevationM
  let totalPoints := r1.1 + r2.1 + r3.1 + r4.1 + r5.1
  let normalizedScore := if MAX_POINTS > 0 then totalPoints / MAX_POINTS else 0
  let category := getHealthCategory normalizedScore
  { siteId := f.siteId
    rawPoints := totalPoints
    maxPoints := MAX_POINTS
    healthScore := normalizedScore
    categoryName := category.name
    categoryDescription := category.description
    ruleResults :=
      [ { rule := (SCORING_RULES.getD 0 defaultScoringRule).condition,
          featureValue := f.ndviMean, met := r1.2, pointsEarned := r1.1 },
        { rule := (SCORING_RULES.getD 1 defaultScoringRule).condition,
          featureValue := f.ndviStd, met := r2.2, pointsEarned := r2.1 },
        { rule := (SCORING_RULES.getD 2 defaultScoringRule).condition,
          featureValue := f.rainfallMm, met := r3.2, pointsEarned := r3.1 },
        { rule := (SCORING_RULES.getD 3 defaultScoringRule).condition,
          featureValue := f.tempMeanC, met := r4.2, pointsEarned := r4.1 },
        { rule := (SCORING_RULES.getD 4 defaultScoringRule).condition,
          featureValue := f.elevationM, met := r5.2, pointsEarned := r5.1 } ] }

/-
  ===========================================================================
  Helper lemmas for the scoring engine
  ===========================================================================
-/

lemma applyNdviMeanRule_bounds (v : Option ℚ) :
    0 ≤ (applyNdviMeanRule v).1 ∧ (applyNdviMeanRule v).1 ≤ 40 := by
  cases v with
  | none => simp [applyNdviMeanRule]
  | some x =>
    by_cases h : x > (0.5:ℚ) <;>
      simp [applyNdviMeanRule, h, SCORING_RULES, defaultScoringRule]

lemma applyNdviStdRule_bounds (v : Option ℚ) :
    0 ≤ (applyNdviStdRule v).1 ∧ (applyNdviStdRule v).1 ≤ 10 := by
  cases v with
  | none => simp [applyNdviStdRule]
  | some x =>
    by_cases h : x < (0.2:ℚ) <;>
      simp [applyNdviStdRule, h, SCORING_RULES, defaultScoringRule]

lemma applyRainfallRule_bounds (v : Option ℚ) :
    0 ≤ (applyRainfallRule v).1 ∧ (applyRainfallRule v).1 ≤ 20 := by
  cases v with
  | none => simp [applyRainfallRule]
  | some x =>
    by_cases h : x > (120:ℚ) <;>
      simp [applyRainfallRule, h, SCORING_RULES, defaultScoringRule]

lemma applyTemperatureRule_bounds (v : Option ℚ) :
    0 ≤ (applyTemperatureRule v).1 ∧ (applyTemperatureRule v).1 ≤ 20 := by
  cases v with
  | none => simp [applyTemperatureRule]
  | some x =>
    by_cases h : (15:ℚ) ≤ x ∧ x ≤ 25 <;>
      simp [applyTemperatureRule, h, SCORING_RULES, defaultScoringRule]

lemma applyElevationRule_bounds (v : Option ℚ) :
    0 ≤ (applyElevationRule v).1 ∧ (applyElevationRule v).1 ≤ 10 := by
  cases v with
  | none => simp [applyElevationRule]
  | some x =>
    by_cases h : (1500:ℚ) ≤ x ∧ x ≤ 3000 <;>
      simp [applyElevationRule, h, SCORING_RULES, defaultScoringRule]

lemma MAX_POINTS_eq : MAX_POINTS = 100 := by
  norm_num [MAX_POINTS, SCORING_RULES]

lemma computeHealthScore_healthScore (f : SiteFeatures) :
    (computeHealthScore f).healthScore =
      ((applyNdviMeanRule f.ndviMean).1 + (applyNdviStdRule f.ndviStd).1 +
       (applyRainfallRule f.rainfallMm).1 + (applyTemperatureRule f.tempMeanC).1 +
       (applyElevationRule f.elevationM).1) / 100 := by
  simp [computeHealthScore, MAX_POINTS_eq]

/-- C4: for every SiteFeatures input, with every combination of present and
absent feature values, rule-based scoring succeeds (it is a total function)
and returns a normalized health score in [0,1]; each rule whose feature is
missing contributes 0 points to the total. -/
theorem scoring_score_in_unit_interval_and_missing_gives_zero (f : SiteFeatures) :
    (0 ≤ (computeHealthScore f).healthScore ∧ (computeHealthScore f).healthScore ≤ 1)
    ∧ (f.ndviMean = none →
        ((computeHealthScore f).ruleResults.getD 0 defaultRuleResult).pointsEarned = 0)
    ∧ (f.ndviStd = none →
        ((computeHealthScore f).ruleResults.getD 1 defaultRuleResult).pointsEarned = 0)
    ∧ (f.rainfallMm = none →
        ((computeHealthScore f).ruleResults.getD 2 defaultRuleResult).pointsEarned = 0)
    ∧ (f.tempMeanC = none →
        ((computeHealthScore f).ruleResults.getD 3 defaultRuleResult).pointsEarned = 0)
    ∧ (f.elevationM = none →
        ((computeHealthScore f).ruleResults.getD 4 defaultRuleResult).pointsEarned = 0) := by
  obtain ⟨b1a, b1b⟩ := applyNdviMeanRule_bounds f.ndviMean
  obtain ⟨b2a, b2b⟩ := applyNdviStdRule_bounds f.ndviStd
  obtain ⟨b3a, b3b⟩ := applyRainfallRule_bounds f.rainfallMm
  obtain ⟨b4a, b4b⟩ := applyTemperatureRule_bounds f.tempMeanC
  obtain ⟨b5a, b5b⟩ := applyElevationRule_bounds f.elevationM
  refine ⟨⟨?_, ?_⟩, ?_, ?_, ?_, ?_, ?_⟩
  · rw [computeHealthScore_healthScore]
    apply div_nonneg _ (by norm_num)
    linarith
  · rw [computeHealthScore_healthScore]
    rw [div_le_one (by norm_num : (0:ℚ) < 100)]
    linarith
  · intro h
    simp [computeHealthScore, h, applyNdviMeanRule, List.getD]
  · intro h
    simp [computeHealthScore, h, applyNdviStdRule, List.getD]
  · intro h
    simp [computeHealthScore, h, applyRainfallRule, List.getD]
  · intro h
    simp [computeHealthScore, h, applyTemperatureRule, List.getD]
  · intro h
    simp [computeHealthScore, h, applyElevationRule, List.getD]

/-- Witness for C4: at the all-unavailable input, the score is in [0,1] and
every rule earns 0 points. -/
theorem scoring_score_witness :
    (0 ≤ (computeHealthScore { siteId := "s" }).healthScore
      ∧ (computeHealthScore { siteId := "s" }).healthScore ≤ 1)
    ∧ ((computeHealthScore { siteId := "s" }).ruleResults.getD 0 defaultRuleResult).pointsEarned = 0
    ∧ ((computeHealthScore { siteId := "s" }).ruleResults.getD 4 defaultRuleResult).pointsEarned = 0 := by
  have h := scoring_score_in_unit_interval_and_missing_gives_zero { siteId := "s" }
  exact ⟨h.1, h.2.1 rfl, h.2.2.2.2.2 rfl⟩

lemma getHealthCategory_clamped (s : ℚ) (h0 : 0 ≤ s) (h1 : s ≤ 1) :
    getHealthCategory s =
      match HEALTH_CATEGORIES.find? (bandContains s) with
      | some c => c
      | none => HEALTH_CATEGORIES.getLastD categoryExcellent := by
  have hclamp : max 0 (min 1 s) = s := by
    rw [min_eq_right h1, max_eq_right h0]
  unfold getHealthCategory
  rw [hclamp]

lemma bandContains_true (s : ℚ) (c : HealthCategory)
    (hlo : c.minScore ≤ s) (hhi : s ≤ c.maxScore) : bandContains s c = true := by
  simp [bandContains, hlo, hhi]

lemma bandContains_false_hi (s : ℚ) (c : HealthCategory)
    (hhi : ¬ s ≤ c.maxScore) : ¬ bandContains s c = true := by
  simp [bandContains, hhi]

/-- C5: category lookup is total on [0,1] (the result is always one of the
five categories) and resolves a score to the first band, in ascending order,
whose inclusive [min, max] range contains it; in particular a score exactly
at a shared boundary belongs to the lower band. -/
theorem category_lookup_total_and_first_match (s : ℚ) (h0 : 0 ≤ s) (h1 : s ≤ 1) :
    getHealthCategory s ∈ HEALTH_CATEGORIES ∧
    getHealthCategory s =
      (if s ≤ 0.2 then categoryCritical
       else if s ≤ 0.4 then categoryPoor
       else if s ≤ 0.6 then categoryFair
       else if s ≤ 0.8 then categoryGood
       else categoryExcellent) := by
  rw [getHealthCategory_clamped s h0 h1]
  have hlist : HEALTH_CATEGORIES =
      [categoryCritical, categoryPoor, categoryFair, categoryGood, categoryExcellent] := rfl
  by_cases h02 : s ≤ (0.2:ℚ)
  · have hfind : HEALTH_CATEGORIES.find? (bandContains s) = some categoryCritical := by
      rw [hlist]
      exact List.find?_cons_of_pos _
        (bandContains_true s categoryCritical (by norm_num [categoryCritical]; linarith) h02)
    rw [hfind]
    simp [hlist, h02]
  · have h02' : (0.2:ℚ) ≤ s := le_of_lt (not_le.mp h02)
    have hc1 : ¬ bandContains s categoryCritical = true :=
      bandContains_false_hi s categoryCritical h02
    by_cases h04 : s ≤ (0.4:ℚ)
    · have hfind : HEALTH_CATEGORIES.find? (bandContains s) = some categoryPoor := by
        rw [hlist, List.find?_cons_of_neg _ hc1]
        exact List.find?_cons_of_pos _ (bandContains_true s categoryPoor h02' h04)
      rw [hfind]
      simp [hlist, h02, h04]
    · have h04' : (0.4:ℚ) ≤ s := le_of_lt (not_le.mp h04)
      have hc2 : ¬ bandContains s categoryPoor = true :=
        bandContains_false_hi s categoryPoor h04
      by_cases h06 : s ≤ (0.6:ℚ)
      · have hfind : HEALTH_CATEGORIES.find? (bandContains s) = some categoryFair := by
          rw [hlist, List.find?_cons_of_neg _ hc1, List.find?_cons_of_neg _ hc2]
          exact List.find?_cons_of_pos _ (bandContains_true s categoryFair h04' h06)
        rw [hfind]
        simp [hlist, h02, h04, h06]
      · have h06' : (0.6:ℚ) ≤ s := le_of_lt (not_le.mp h06)
        have hc3 : ¬ bandContains s categoryFair = true :=
          bandContains_false_hi s categoryFair h06
        by_cases h08 : s ≤ (0.8:ℚ)
        · have hfind : HEALTH_CATEGORIES.find? (bandContains s) = some categoryGood := by
            rw [hlist, List.find?_cons_of_neg _ hc1, List.find?_cons_of_neg _ hc2,
              List.find?_cons_of_neg _ hc3]
            exact List.find?_cons_of_pos _ (bandContains_true s categoryGood h06' h08)
          rw [hfind]
          simp [hlist, h02, h04, h06, h08]
        · have h08' : (0.8:ℚ) ≤ s := le_of_lt (not_le.mp h08)
          have hc4 : ¬ bandContains s categoryGood = true :=
            bandContains_false_hi s categoryGood h08
          have hfind : HEALTH_CATEGORIES.find? (bandContains s) = some categoryExcellent := by
            rw [hlist, List.find?_cons_of_neg _ hc1, List.find?_cons_of_neg _ hc2,
              List.find?_cons_of_neg _ hc3, List.find?_cons_of_neg _ hc4]
            exact List.find?_cons_of_pos _
              (bandContains_true s categoryExcellent h08' (by norm_num [categoryExcellent]; linarith))
          rw [hfind]
          simp [hlist, h02, h04, h06, h08]


/-- Witness for C5: the boundary score 0.2 is in range and resolves to the
lower band (Critical), the first matching band in ascending order. -/
theorem category_lookup_witness :
    (0:ℚ) ≤ 0.2 ∧ (0.2:ℚ) ≤ 1 ∧
    getHealthCategory 0.2 ∈ HEALTH_CATEGORIES ∧
    getHealthCategory 0.2 = categoryCritical := by
  have h := category_lookup_total_and_first_match 0.2 (by norm_num) (by norm_num)
  refine ⟨by norm_num, by norm_num, h.1, ?_⟩
  rw [h.2]
  norm_num

/-
  ===========================================================================
  Dates. Python datetime.date subtraction is modelled through the proleptic
  Gregorian ordinal (date.toordinal), with 0001-01-01 having ordinal 1.
  ===========================================================================
-/

structure Date where
  year : Nat
  month : Nat
  day : Nat
deriving DecidableEq

def isLeapYear (y : Nat) : Bool :=
  (y % 4 == 0 && y % 100 != 0) || y % 400 == 0

def daysInMonth (y m : Nat) : Nat :=
  if m = 2 then (if isLeapYear y then 29 else 28)
  else if m = 4 ∨ m = 6 ∨ m = 9 ∨ m = 11 then 30
  else 31

def daysBeforeMonth (y m : Nat) : Nat :=
  ((List.range (m - 1)).map (fun i => daysInMonth y (i + 1))).sum

def daysBeforeYear (y : Nat) : Nat :=
  let n := y - 1
  n * 365 + n / 4 - n / 100 + n / 400

def toOrdinal (d : Date) : Nat :=
  daysBeforeYear d.year + daysBeforeMonth d.year d.month + d.day

/-- Embedding of (end_date_obj - start_date_obj).days. -/
def dateDiffDays (a b : Date) : Int :=
  (toOrdinal b : Int) - (toOrdinal a : Int)

/-- Embedding of days_in_period = (end_date_obj - start_date_obj).days + 1. -/
def daysInPeriod (startDate endDate : Date) : Int :=
  dateDiffDays startDate endDate + 1

/-
  ===========================================================================
  Feature pipeline (backend/app/ml/feature_pipeline.py,
  extract_features_for_site). The four source-client results are the inputs
  of the embedded function; dates arrive already parsed (the YYYY-MM-DD
  regex and strptime are upstream of the modelled fragment).
  ===========================================================================
-/

/-- Result dictionary of SoilGridsClient.get_soil_properties: all keys are
always present, individual values may be None (bulk_density is elided, the
pipeline never reads it). -/
structure SoilPropsResult where
  soc : Option ℚ
  sand : Option ℚ
  clay : Option ℚ
  silt : Option ℚ
  ph : Option ℚ
deriving DecidableEq

/-- Outcome of compute_ndvi_stats as seen by the pipeline: either a stats
dictionary whose ndvi_mean / ndvi_std entries may individually be None, or a
raised exception (caught by the pipeline). -/
inductive NdviOutcome where
  | stats (ndviMean ndviStd : Option ℚ)
  | raised
deriving DecidableEq

/-- Inputs of one extraction: the results of the three client calls and of
compute_ndvi_stats, plus the parsed date window. tempTuple is the NASA
POWER client's (mean, tmin, tmax) result or None; the pipeline's defensive
branch for a 2-tuple is unreachable under the client's return contract. -/
structure ExtractInput where
  rainfallMm : Option ℚ
  tempTuple : Option (ℚ × ℚ × ℚ)
  soilProps : Option SoilPropsResult
  ndvi : NdviOutcome
  startDate : Date
  endDate : Date
deriving DecidableEq

structure SourceBreakdown where
  rainfallSource : String
  rainfallValue : ℚ
  rainfallAvailable : Bool
  temperatureSource : String
  temperatureTmin : ℚ
  temperatureTmax : ℚ
  temperatureAvailable : Bool
  soilSource : String
  soilAvailable : Bool
  ndviSource : String
  ndviAvailable : Bool
deriving DecidableEq

structure FeatureRecord where
  ndviMean : Option ℚ
  ndviStd : Option ℚ
  rainfallTotalMm : ℚ
  rainfallMeanMmPerDay : ℚ
  tminC : ℚ
  tmaxC : ℚ
  soc : Option ℚ
  sand : Option ℚ
  clay : Option ℚ
  silt : Option ℚ
  ph : Option ℚ
  sourceBreakdown : SourceBreakdown
  markedPartial : Bool
deriving DecidableEq

/-- Embedding of the record-building body of extract_features_for_site.
markedPartial is the is_partial flag; the ndvi availability entry reflects
the final value written at the end of the function (the dict mutation after
the document literal). Ids, timestamps, solar_radiation and ndvi_meta are
elided. -/
def extractRecord (inp : ExtractInput) : FeatureRecord :=
  let rainfallStored : ℚ := match inp.rainfallMm with
    | some v => v
    | none => 0
  let tpair : ℚ × ℚ := match inp.tempTuple with
    | some (_, tmin, tmax) => (tmin, tmax)
    | none => (0, 0)
  let soil : SoilPropsResult := match inp.soilProps with
    | some s => s
    | none => { soc := some 0, sand := some 0, clay := some 0, silt := some 0, ph := some 0 }
  let ndviPair : Option ℚ × Option ℚ := match inp.ndvi with
    | .stats m sd => (m, sd)
    | .raised => (none, none)
  let ndviMissing : Bool := match inp.ndvi with
    | .stats m sd => m.isNone || sd.isNone
    | .raised => true
  let isPartialFlag : Bool :=
    inp.rainfallMm.isNone || inp.tempTuple.isNone || inp.soilProps.isNone || ndviMissing
  let daysCount : Int := daysInPeriod inp.startDate inp.endDate
  let meanPerDay : ℚ := if rainfallStored ≠ 0 then rainfallStored / 365 else 0
  { ndviMean := ndviPair.1
    ndviStd := ndviPair.2
    rainfallTotalMm := meanPerDay * (daysCount : ℚ)
    rainfallMeanMmPerDay := meanPerDay
    tminC := tpair.1
    tmaxC := tpair.2
    soc := soil.soc
    sand := soil.sand
    clay := soil.clay
    silt := soil.silt
    ph := soil.ph
    sourceBreakdown :=
      { rainfallSource := "CHIRPS"
        rainfallValue := rainfallStored
        rainfallAvailable := decide (rainfallStored > 0)
        temperatureSource := "NASA POWER"
        temperatureTmin := tpair.1
        temperatureTmax := tpair.2
        temperatureAvailable := inp.tempTuple.isSome
        soilSource := "SoilGrids"
        soilAvailable := inp.soilProps.isSome
        ndviSource := "Sentinel-2"
        ndviAvailable := ndviPair.1.isSome }
    markedPartial := isPartialFlag }

/-- Embedding of extract_features_for_site including its only rejection
path: a site that is not found raises ValueError; everything else produces
a stored feature document. -/
def extract_features_for_site (siteFound : Bool) (inp : ExtractInput) :
    Except String FeatureRecord :=
  if siteFound then .ok (extractRecord inp) else .error "Site not found"

/-- Usability of the NDVI pillar as the pipeline sees it: stats were
computed and both ndvi_mean and ndvi_std are present. -/
def ndviUsable : NdviOutcome → Bool
  | .stats m sd => m.isSome && sd.isSome
  | .raised => false

/-
  ===========================================================================
  Claims about the feature pipeline
  ===========================================================================
-/

/-- C2: the partial flag is false exactly when all four pillars (rainfall,
temperature, soil, vegetation index) returned usable values; any single
missing pillar forces partial = true, independently of which pillar or in
which order failures are considered (the flag is a pure disjunction). -/
theorem partial_flag_iff_any_pillar_missing (inp : ExtractInput) :
    (extractRecord inp).markedPartial = false ↔
      (inp.rainfallMm.isSome = true ∧ inp.tempTuple.isSome = true ∧
       inp.soilProps.isSome = true ∧ ndviUsable inp.ndvi = true) := by
  obtain ⟨r, t, s, n, sd, ed⟩ := inp
  cases r <;> cases t <;> cases s <;>
    (cases n with
     | raised => simp [extractRecord, ndviUsable]
     | stats m std => cases m <;> cases std <;> simp [extractRecord, ndviUsable])

/-- Witness for C2: at an input with all four pillars available the record
is not marked partial. -/
theorem partial_flag_iff_any_pillar_missing_witness :
    (extractRecord
      { rainfallMm := some 365, tempTuple := some (20, 15, 25),
        soilProps := some { soc := some 1, sand := some 40, clay := some 30,
                            silt := some 30, ph := some 6 },
        ndvi := .stats (some 0.5) (some 0.1),
        startDate := ⟨2024, 1, 1⟩, endDate := ⟨2024, 1, 10⟩ }).markedPartial = false := by
  exact (partial_flag_iff_any_pillar_missing _).mpr ⟨rfl, rfl, rfl, rfl⟩

/-- Concrete extraction input in which every pillar is unavailable. -/
def ceAllMissingInput : ExtractInput :=
  { rainfallMm := none, tempTuple := none, soilProps := none, ndvi := .raised,
    startDate := ⟨2024, 1, 1⟩, endDate := ⟨2024, 1, 10⟩ }

/-- C1 counterexample: with rainfall, temperature and soil all unavailable
the stored record holds the numeric value 0.0 in the rainfall, tmin_c,
tmax_c and soil fields (only the NDVI fields are null), refuting the claim
that a missing source's fields are stored as null. -/
theorem missing_sources_stored_as_zero_counterexample :
    (extractRecord ceAllMissingInput).tminC = 0 ∧
    (extractRecord ceAllMissingInput).tmaxC = 0 ∧
    (extractRecord ceAllMissingInput).rainfallMeanMmPerDay = 0 ∧
    (extractRecord ceAllMissingInput).rainfallTotalMm = 0 ∧
    (extractRecord ceAllMissingInput).soc = some 0 ∧
    (extractRecord ceAllMissingInput).sand = some 0 ∧
    (extractRecord ceAllMissingInput).clay = some 0 ∧
    (extractRecord ceAllMissingInput).silt = some 0 ∧
    (extractRecord ceAllMissingInput).ph = some 0 ∧
    (extractRecord ceAllMissingInput).ndviMean = none ∧
    (extractRecord ceAllMissingInput).ndviStd = none ∧
    (extractRecord ceAllMissingInput).markedPartial = true := by
  refine ⟨?_, ?_, ?_, ?_, ?_, ?_, ?_, ?_, ?_, ?_, ?_, ?_⟩ <;>
    simp [extractRecord, ceAllMissingInput]

/-- C1 (amended): only the vegetation-index fields store null on source
failure; an unavailable rainfall, temperature or soil source is stored as
the numeric default 0.0 in the corresponding fields, with the record marked
partial (absence is signalled by the partial flag and the source breakdown,
not by null). -/
theorem missing_sources_numeric_defaults (inp : ExtractInput) :
    (inp.ndvi = .raised →
      (extractRecord inp).ndviMean = none ∧ (extractRecord inp).ndviStd = none ∧
      (extractRecord inp).markedPartial = true)
    ∧ (inp.rainfallMm = none →
      (extractRecord inp).rainfallMeanMmPerDay = 0 ∧
      (extractRecord inp).rainfallTotalMm = 0 ∧
      (extractRecord inp).markedPartial = true)
    ∧ (inp.tempTuple = none →
      (extractRecord inp).tminC = 0 ∧ (extractRecord inp).tmaxC = 0 ∧
      (extractRecord inp).markedPartial = true)
    ∧ (inp.soilProps = none →
      (extractRecord inp).soc = some 0 ∧ (extractRecord inp).sand = some 0 ∧
      (extractRecord inp).clay = some 0 ∧ (extractRecord inp).silt = some 0 ∧
      (extractRecord inp).ph = some 0 ∧
      (extractRecord inp).markedPartial = true) := by
  refine ⟨?_, ?_, ?_, ?_⟩ <;> intro h <;> simp [extractRecord, h]

/-- Witness for the amended C1 at the all-missing input. -/
theorem missing_sources_numeric_defaults_witness :
    ceAllMissingInput.ndvi = NdviOutcome.raised ∧
    ceAllMissingInput.rainfallMm = none ∧
    (extractRecord ceAllMissingInput).ndviMean = none ∧
    (extractRecord ceAllMissingInput).rainfallTotalMm = 0 ∧
    (extractRecord ceAllMissingInput).markedPartial = true := by
  have h := missing_sources_numeric_defaults ceAllMissingInput
  exact ⟨rfl, rfl, (h.1 rfl).1, (h.2.1 rfl).2.1, (h.1 rfl).2.2⟩

/-- Concrete extraction input whose date window is reversed
(end_date 2024-01-01 strictly before start_date 2024-01-10). -/
def reversedWindowInput : ExtractInput :=
  { rainfallMm := some 365
    tempTuple := some (20, 15, 25)
    soilProps := some { soc := some 1, sand := some 40, clay := some 30,
                        silt := some 30, ph := some 6 }
    ndvi := .stats (some 0.5) (some 0.1)
    startDate := ⟨2024, 1, 10⟩
    endDate := ⟨2024, 1, 1⟩ }

/-- C3 counterexample: a request with end_date before start_date is not
rejected; the pipeline computes a negative inclusive day count (-8) and
stores a record whose rainfall_total_mm is negative. -/
theorem reversed_window_not_rejected_counterexample :
    daysInPeriod ⟨2024, 1, 10⟩ ⟨2024, 1, 1⟩ = -8 ∧
    extract_features_for_site true reversedWindowInput =
      .ok (extractRecord reversedWindowInput) ∧
    (extractRecord reversedWindowInput).rainfallTotalMm = -8 := by
  have hd : daysInPeriod ⟨2024, 1, 10⟩ ⟨2024, 1, 1⟩ = -8 := by decide
  refine ⟨hd, rfl, ?_⟩
  norm_num [extractRecord, reversedWindowInput, hd]

/-- C3 (amended): the pipeline performs no date-order validation: whenever
the site is found, extraction succeeds for every date window, including
end_date < start_date, in which case the inclusive day count used for
rainfall_total_mm is non-positive; only site-not-found is rejected. -/
theorem extraction_succeeds_regardless_of_date_order (inp : ExtractInput) :
    extract_features_for_site true inp = .ok (extractRecord inp) ∧
    (∀ q, extract_features_for_site false inp ≠ .ok q) ∧
    (toOrdinal inp.endDate < toOrdinal inp.startDate →
      daysInPeriod inp.startDate inp.endDate ≤ 0) := by
  refine ⟨rfl, ?_, ?_⟩
  · intro q h
    simp [extract_features_for_site] at h
  · intro h
    simp only [daysInPeriod, dateDiffDays]
    omega

/-- Witness for the amended C3 at the reversed window. -/
theorem extraction_succeeds_regardless_of_date_order_witness :
    toOrdinal reversedWindowInput.endDate < toOrdinal reversedWindowInput.startDate ∧
    extract_features_for_site true reversedWindowInput =
      .ok (extractRecord reversedWindowInput) ∧
    daysInPeriod reversedWindowInput.startDate reversedWindowInput.endDate ≤ 0 := by
  have h := extraction_succeeds_regardless_of_date_order reversedWindowInput
  exact ⟨by decide, h.1, h.2.2 (by decide)⟩

/-- Concrete extraction input that yields rainfall_mean_mm_per_day = 2.5
over the inclusive window 2024-01-01 to 2024-01-10. -/
def rainfallWindowInput : ExtractInput :=
  { rainfallMm := some (1825 / 2)
    tempTuple := some (20, 15, 25)
    soilProps := some { soc := some 1, sand := some 40, clay := some 30,
                        silt := some 30, ph := some 6 }
    ndvi := .stats (some 0.5) (some 0.1)
    startDate := ⟨2024, 1, 1⟩
    endDate := ⟨2024, 1, 10⟩ }

/-- C6: the stored rainfall_total_mm always equals the stored daily mean
times the inclusive day count of [start_date, end_date]; the window
2024-01-01 to 2024-01-10 counts 10 days, and an extraction whose daily mean
is 2.5 mm over that window stores rainfall_total_mm = 25.0. -/
theorem rainfall_total_is_daily_mean_times_inclusive_days (inp : ExtractInput) :
    (extractRecord inp).rainfallTotalMm =
      (extractRecord inp).rainfallMeanMmPerDay *
        ((daysInPeriod inp.startDate inp.endDate : Int) : ℚ) ∧
    daysInPeriod ⟨2024, 1, 1⟩ ⟨2024, 1, 10⟩ = 10 ∧
    (extractRecord rainfallWindowInput).rainfallMeanMmPerDay = 5 / 2 ∧
    (extractRecord rainfallWindowInput).rainfallTotalMm = 25 := by
  have hd : daysInPeriod ⟨2024, 1, 1⟩ ⟨2024, 1, 10⟩ = 10 := by decide
  refine ⟨rfl, hd, ?_, ?_⟩ <;>
    norm_num [extractRecord, rainfallWindowInput, hd]

/-- C10: the rainfall entry of source_breakdown records available = true
exactly when the stored rainfall value is strictly positive; a failed fetch
(stored as 0.0) and a provider value of exactly 0 are both recorded as
unavailable. -/
theorem rainfall_breakdown_available_iff_positive (inp : ExtractInput) :
    ((extractRecord inp).sourceBreakdown.rainfallAvailable = true ↔
      (extractRecord inp).sourceBreakdown.rainfallValue > 0)
    ∧ (inp.rainfallMm = none →
      (extractRecord inp).sourceBreakdown.rainfallValue = 0 ∧
      (extractRecord inp).sourceBreakdown.rainfallAvailable = false)
    ∧ (inp.rainfallMm = some 0 →
      (extractRecord inp).sourceBreakdown.rainfallAvailable = false) := by
  refine ⟨?_, ?_, ?_⟩
  · simp [extractRecord]
  · intro h
    simp [extractRecord, h]
  · intro h
    simp [extractRecord, h]

/-- Witness for C10 at a failed rainfall fetch and at a zero provider
value. -/
theorem rainfall_breakdown_available_witness :
    (extractRecord ceAllMissingInput).sourceBreakdown.rainfallValue = 0 ∧
    (extractRecord ceAllMissingInput).sourceBreakdown.rainfallAvailable = false ∧
    (extractRecord { ceAllMissingInput with rainfallMm := some 0 }).sourceBreakdown.rainfallAvailable = false := by
  have h1 := rainfall_breakdown_available_iff_positive ceAllMissingInput
  have h2 := rainfall_breakdown_available_iff_positive
    { ceAllMissingInput with rainfallMm := some 0 }
  exact ⟨(h1.2.1 rfl).1, (h1.2.1 rfl).2, h2.2.2 rfl⟩

/-
  ===========================================================================
  HTTP client with retry logic (environmental_api_client.py, HTTPClient.get)

  An attempt's outcome is what one requests.get call produces: a parsed
  payload, a timeout, a connection error, an HTTP error status raised by
  raise_for_status, or any other exception. The embedding returns the result
  together with the sleep log and the number of attempts issued: exceptions
  cannot escape by construction, mirroring the catch-all handler.
  ===========================================================================
-/

inductive AttemptResult (α : Type) where
  | success (payload : α)
  | timeout
  | connError
  | httpError (status : Nat)
  | otherError
deriving DecidableEq

structure RetryConfig where
  retryAttempts : Nat
  retryDelay : ℚ
  backoffMultiplier : ℚ
deriving DecidableEq

/-- One outcome is retryable when the code sleeps and moves to the next
loop iteration: timeout, connection error, or HTTP 429. -/
def retryableOutcome {α : Type} : AttemptResult α → Bool
  | .success _ => false
  | .timeout => true
  | .connError => true
  | .httpError status => decide (status = 429)
  | .otherError => false

/-- The retry loop of HTTPClient.get. fuel is the number of loop iterations
left, attempt the current index; returns (result, sleep log, attempts
issued). On timeout and connection error the code only sleeps when another
attempt remains; on HTTP 429 it sleeps unconditionally; on any other HTTP
error status or other exception it returns None at once. -/
def runGet {α : Type} (oracle : Nat → AttemptResult α) (mult : ℚ) :
    Nat → Nat → ℚ → Option α × List ℚ × Nat
  | _, 0, _ => (none, [], 0)
  | attempt, fuel + 1, delay =>
    match oracle attempt with
    | .success p => (some p, [], 1)
    | .timeout =>
      if fuel = 0 then (none, [], 1)
      else
        let r := runGet oracle mult (attempt + 1) fuel (delay * mult)
        (r.1, delay :: r.2.1, r.2.2 + 1)
    | .connError =>
      if fuel = 0 then (none, [], 1)
      else
        let r := runGet oracle mult (attempt + 1) fuel (delay * mult)
        (r.1, delay :: r.2.1, r.2.2 + 1)
    | .httpError status =>
      if status = 429 then
        let r := runGet oracle mult (attempt + 1) fuel (delay * mult)
        (r.1, delay :: r.2.1, r.2.2 + 1)
      else (none, [], 1)
    | .otherError => (none, [], 1)

/-- Embedding of HTTPClient.get: start at attempt 0 with the configured
initial delay and up to retry_attempts iterations. -/
def HTTPClient.get {α : Type} (cfg : RetryConfig) (oracle : Nat → AttemptResult α) :
    Option α × List ℚ × Nat :=
  runGet oracle cfg.backoffMultiplier 0 cfg.retryAttempts cfg.retryDelay

/-- The configured defaults of REQUEST_CONFIG in config.py. -/
def defaultRetryConfig : RetryConfig :=
  { retryAttempts := 3, retryDelay := 1, backoffMultiplier := 2 }

lemma runGet_attempts_le {α : Type} (oracle : Nat → AttemptResult α) (mult : ℚ) :
    ∀ fuel attempt delay, (runGet oracle mult attempt fuel delay).2.2 ≤ fuel := by
  intro fuel
  induction fuel with
  | zero => intro attempt delay; simp [runGet]
  | succ n ih =>
    intro attempt delay
    cases ho : oracle attempt with
    | success p => simp [runGet, ho]
    | timeout =>
      by_cases hf : n = 0
      · simp [runGet, ho, hf]
      · have := ih (attempt + 1) (delay * mult)
        simp only [runGet, ho, if_neg hf]
        omega
    | connError =>
      by_cases hf : n = 0
      · simp [runGet, ho, hf]
      · have := ih (attempt + 1) (delay * mult)
        simp only [runGet, ho, if_neg hf]
        omega
    | httpError status =>
      by_cases hs : status = 429
      · have := ih (attempt + 1) (delay * mult)
        simp only [runGet, ho, if_pos hs]
        omega
      · simp [runGet, ho, hs]
    | otherError => simp [runGet, ho]

lemma runGet_429_step {α : Type} (oracle : Nat → AttemptResult α) (mult : ℚ)
    (attempt fuel : Nat) (delay : ℚ)
    (ho : oracle attempt = .httpError 429) :
    runGet oracle mult attempt (fuel + 1) delay =
      ((runGet oracle mult (attempt + 1) fuel (delay * mult)).1,
       delay :: (runGet oracle mult (attempt + 1) fuel (delay * mult)).2.1,
       (runGet oracle mult (attempt + 1) fuel (delay * mult)).2.2 + 1) := by
  simp [runGet, ho]

lemma runGet_step_cons {α : Type} (oracle : Nat → AttemptResult α) (mult : ℚ)
    (attempt fuel : Nat) (delay : ℚ)
    (h : retryableOutcome (oracle attempt) = true) (hf : fuel ≠ 0) :
    runGet oracle mult attempt (fuel + 1) delay =
      ((runGet oracle mult (attempt + 1) fuel (delay * mult)).1,
       delay :: (runGet oracle mult (attempt + 1) fuel (delay * mult)).2.1,
       (runGet oracle mult (attempt + 1) fuel (delay * mult)).2.2 + 1) := by
  cases ho : oracle attempt with
  | success p => rw [ho] at h; simp [retryableOutcome] at h
  | timeout => simp [runGet, ho, hf]
  | connError => simp [runGet, ho, hf]
  | httpError status =>
    rw [ho] at h
    simp [retryableOutcome] at h
    subst h
    exact runGet_429_step oracle mult attempt fuel delay ho
  | otherError => rw [ho] at h; simp [retryableOutcome] at h

lemma runGet_sleeps_geometric {α : Type} (oracle : Nat → AttemptResult α) (mult : ℚ) :
    ∀ fuel attempt delay i, i < (runGet oracle mult attempt fuel delay).2.1.length →
      (runGet oracle mult attempt fuel delay).2.1.getD i 0 = delay * mult ^ i := by
  intro fuel
  induction fuel with
  | zero => intro attempt delay i h; simp [runGet] at h
  | succ n ih =>
    intro attempt delay i h
    cases ho : oracle attempt with
    | success p => simp [runGet, ho] at h
    | otherError => simp [runGet, ho] at h
    | timeout =>
      by_cases hf : n = 0
      · simp [runGet, ho, hf] at h
      · have heq := runGet_step_cons oracle mult attempt n delay
          (by simp [retryableOutcome, ho]) hf
        rw [heq] at h ⊢
        cases i with
        | zero => simp
        | succ j =>
          have hj : j < (runGet oracle mult (attempt + 1) n (delay * mult)).2.1.length := by
            simpa using h
          have hih := ih (attempt + 1) (delay * mult) j hj
          simp only [List.getD_cons_succ, hih, pow_succ]
          ring
    | connError =>
      by_cases hf : n = 0
      · simp [runGet, ho, hf] at h
      · have heq := runGet_step_cons oracle mult attempt n delay
          (by simp [retryableOutcome, ho]) hf
        rw [heq] at h ⊢
        cases i with
        | zero => simp
        | succ j =>
          have hj : j < (runGet oracle mult (attempt + 1) n (delay * mult)).2.1.length := by
            simpa using h
          have hih := ih (attempt + 1) (delay * mult) j hj
          simp only [List.getD_cons_succ, hih, pow_succ]
          ring
    | httpError status =>
      by_cases hs : status = 429
      · subst hs
        have heq := runGet_429_step oracle mult attempt n delay ho
        rw [heq] at h ⊢
        cases i with
        | zero => simp
        | succ j =>
          have hj : j < (runGet oracle mult (attempt + 1) n (delay * mult)).2.1.length := by
            simpa using h
          have hih := ih (attempt + 1) (delay * mult) j hj
          simp only [List.getD_cons_succ, hih, pow_succ]
          ring
      · simp [runGet, ho, hs] at h

lemma runGet_all_retryable_none {α : Type} (oracle : Nat → AttemptResult α) (mult : ℚ)
    (hall : ∀ i, retryableOutcome (oracle i) = true) :
    ∀ fuel attempt delay, (runGet oracle mult attempt fuel delay).1 = none := by
  intro fuel
  induction fuel with
  | zero => intro attempt delay; simp [runGet]
  | succ n ih =>
    intro attempt delay
    have hr := hall attempt
    cases ho : oracle attempt with
    | success p => rw [ho] at hr; simp [retryableOutcome] at hr
    | timeout =>
      by_cases hf : n = 0
      · simp [runGet, ho, hf]
      · simp only [runGet, ho, if_neg hf]
        exact ih (attempt + 1) (delay * mult)
    | connError =>
      by_cases hf : n = 0
      · simp [runGet, ho, hf]
      · simp only [runGet, ho, if_neg hf]
        exact ih (attempt + 1) (delay * mult)
    | httpError status =>
      rw [ho] at hr
      simp [retryableOutcome] at hr
      simp only [runGet, ho, if_pos hr]
      exact ih (attempt + 1) (delay * mult)
    | otherError => rw [ho] at hr; simp [retryableOutcome] at hr

/-- C7: the retry client issues at most the configured number of attempts;
sleeps follow the exponential backoff sequence delay * multiplier ^ attempt;
a non-429 HTTP error status fails immediately with a single attempt and the
None sentinel; if every attempt fails with a retryable outcome the client
returns the None sentinel after exhausting its attempts; and a request that
fails twice with retryable outcomes and succeeds on the third attempt
returns the successful payload after sleeping delay, then delay *
multiplier. -/
theorem http_get_retry_policy {α : Type} (cfg : RetryConfig)
    (oracle : Nat → AttemptResult α) :
    (HTTPClient.get cfg oracle).2.2 ≤ cfg.retryAttempts
    ∧ (∀ i, i < (HTTPClient.get cfg oracle).2.1.length →
        (HTTPClient.get cfg oracle).2.1.getD i 0 =
          cfg.retryDelay * cfg.backoffMultiplier ^ i)
    ∧ (∀ status, oracle 0 = .httpError status → status ≠ 429 →
        1 ≤ cfg.retryAttempts →
        (HTTPClient.get cfg oracle).1 = none ∧ (HTTPClient.get cfg oracle).2.2 = 1)
    ∧ ((∀ i, retryableOutcome (oracle i) = true) → (HTTPClient.get cfg oracle).1 = none)
    ∧ (∀ p, retryableOutcome (oracle 0) = true → retryableOutcome (oracle 1) = true →
        oracle 2 = .success p → cfg.retryAttempts = 3 →
        (HTTPClient.get cfg oracle).1 = some p ∧
        (HTTPClient.get cfg oracle).2.1 =
          [cfg.retryDelay, cfg.retryDelay * cfg.backoffMultiplier]) := by
  refine ⟨runGet_attempts_le oracle cfg.backoffMultiplier cfg.retryAttempts 0 cfg.retryDelay,
    fun i h => runGet_sleeps_geometric oracle cfg.backoffMultiplier cfg.retryAttempts 0
      cfg.retryDelay i h, ?_, ?_, ?_⟩
  · intro status h0 h429 hN
    obtain ⟨n, hn⟩ : ∃ n, cfg.retryAttempts = n + 1 := ⟨cfg.retryAttempts - 1, by omega⟩
    unfold HTTPClient.get
    rw [hn]
    constructor <;> simp [runGet, h0, h429]
  · intro hall
    exact runGet_all_retryable_none oracle cfg.backoffMultiplier hall
      cfg.retryAttempts 0 cfg.retryDelay
  · intro p h0 h1 h2 hN
    unfold HTTPClient.get
    rw [hN]
    rw [show (3 : Nat) = 2 + 1 from rfl,
      runGet_step_cons oracle cfg.backoffMultiplier 0 2 cfg.retryDelay h0 (by omega)]
    rw [show (2 : Nat) = 1 + 1 from rfl,
      runGet_step_cons oracle cfg.backoffMultiplier 1 1
        (cfg.retryDelay * cfg.backoffMultiplier) h1 (by omega)]
    simp [runGet, h2]

/-- Concrete oracle for the C7 witness: the first two attempts time out
and the third returns payload 42. -/
def oracleTwoFailures : Nat → AttemptResult Nat :=
  fun i => if i < 2 then .timeout else .success 42

/-- Witness for C7: with the configured defaults (3 attempts, delay 1,
multiplier 2), two timeouts followed by a success return the payload after
sleeping 1 then 2 seconds, within the attempt budget. -/
theorem http_get_retry_policy_witness :
    (HTTPClient.get defaultRetryConfig oracleTwoFailures).1 = some 42 ∧
    (HTTPClient.get defaultRetryConfig oracleTwoFailures).2.1 = [1, 2] ∧
    (HTTPClient.get defaultRetryConfig oracleTwoFailures).2.2 ≤ 3 := by
  have h := http_get_retry_policy defaultRetryConfig oracleTwoFailures
  obtain ⟨ha, hb⟩ := h.2.2.2.2 42 (by decide) (by decide) (by decide) rfl
  refine ⟨ha, ?_, h.1⟩
  rw [hb]
  norm_num [defaultRetryConfig]

/-
  ===========================================================================
  Fixture fallbacks (environmental_api_client.py,
  CHIRPSClient.get_rainfall_for_location / CHIRPSClient._load_fixture,
  NASAPOWERClient._load_temperature_fixture)

  A fixture file on disk is either absent, unreadable (JSON/IO error), or
  readable content in which the looked-up key may be absent. JSON-null
  values inside a readable fixture are not modelled.
  ===========================================================================
-/

inductive FixtureFile (β : Type) where
  | absent
  | unreadable
  | content (fields : β)
deriving DecidableEq

/-- Embedding of CHIRPSClient._load_fixture: a readable fixture yields its
annual_mean_mm entry (120.0 when the key is absent); a missing or
unreadable fixture falls through to the hardcoded default 120.0. -/
def chirpsLoadFixture : FixtureFile (Option ℚ) → Option ℚ
  | .absent => some 120
  | .unreadable => some 120
  | .content none => some 120
  | .content (some v) => some v

/-- Embedding of CHIRPSClient.get_rainfall_for_location. The current code
performs no live WCS fetch (placeholder): after a cache miss it always goes
to the fixture path; a truthy fixture result is returned, otherwise None.
The cache argument is the cached rainfall_mm on a cache hit. -/
def chirpsGetRainfall (cache : Option ℚ) (fx : FixtureFile (Option ℚ)) : Option ℚ :=
  match cache with
  | some v => some v
  | none =>
    match chirpsLoadFixture fx with
    | some r => if r = 0 then none else some r
    | none => none

/-- The properties object of the NASA POWER fixture file: each temperature
key may be absent. -/
structure NasaFixtureProps where
  t2m : Option ℚ
  t2mMin : Option ℚ
  t2mMax : Option ℚ
deriving DecidableEq

/-- Embedding of NASAPOWERClient._load_temperature_fixture: a readable
fixture yields its T2M / T2M_MIN / T2M_MAX entries with per-key defaults
20.0 / 15.0 / 25.0; a missing or unreadable fixture falls through to the
hardcoded Kenya defaults (20.0, 15.0, 25.0). -/
def nasaLoadTemperatureFixture : FixtureFile NasaFixtureProps → Option (ℚ × ℚ × ℚ)
  | .absent => some (20, 15, 25)
  | .unreadable => some (20, 15, 25)
  | .content p => some (p.t2m.getD 20, p.t2mMin.getD 15, p.t2mMax.getD 25)

/-- C8 counterexample: on the fallback path with no fixture file on disk,
the rainfall client returns the hardcoded default 120.0 rather than the
None sentinel the claim requires, and the temperature fixture loader
likewise returns hardcoded defaults (20, 15, 25). -/
theorem fixture_fallback_counterexample :
    chirpsGetRainfall none .absent = some 120 ∧
    chirpsGetRainfall none .absent ≠ none ∧
    nasaLoadTemperatureFixture .absent = some (20, 15, 25) := by
  refine ⟨?_, ?_, ?_⟩ <;>
    simp [chirpsGetRainfall, chirpsLoadFixture, nasaLoadTemperatureFixture]

/-- C8 (amended): when the live path fails, the rainfall and temperature
clients fall back to the bundled fixture value when a readable fixture
exists (per-key defaults applied), and when the fixture is missing or
unreadable they return hardcoded defaults (120.0 mm; (20, 15, 25) degrees
C) instead of the None sentinel; no failure escapes as an exception (the
embedded functions are total). The None sentinel only arises for a falsy
(zero) fixture value. -/
theorem fixture_fallback_behavior (v : ℚ) (p : NasaFixtureProps) :
    (v ≠ 0 → chirpsGetRainfall none (.content (some v)) = some v) ∧
    chirpsGetRainfall none (.content (some 0)) = none ∧
    chirpsGetRainfall none .absent = some 120 ∧
    chirpsGetRainfall none .unreadable = some 120 ∧
    nasaLoadTemperatureFixture (.content p) =
      some (p.t2m.getD 20, p.t2mMin.getD 15, p.t2mMax.getD 25) ∧
    nasaLoadTemperatureFixture .absent = some (20, 15, 25) ∧
    nasaLoadTemperatureFixture .unreadable = some (20, 15, 25) := by
  refine ⟨?_, ?_, ?_, ?_, rfl, rfl, rfl⟩
  · intro hv
    simp [chirpsGetRainfall, chirpsLoadFixture, hv]
  · simp [chirpsGetRainfall, chirpsLoadFixture]
  · simp [chirpsGetRainfall, chirpsLoadFixture]
  · simp [chirpsGetRainfall, chirpsLoadFixture]

/-- Witness for the amended C8 at fixture value 95.5 mm. -/
theorem fixture_fallback_behavior_witness :
    (191 / 2 : ℚ) ≠ 0 ∧
    chirpsGetRainfall none (.content (some (191 / 2))) = some (191 / 2) ∧
    nasaLoadTemperatureFixture .absent = some (20, 15, 25) := by
  have h := fixture_fallback_behavior (191 / 2) ⟨none, none, none⟩
  exact ⟨by norm_num, h.1 (by norm_num), h.2.2.2.2.2.1⟩

/-
  ===========================================================================
  Learned model wrapper (models.py, SiteRiskModel.predict)

  Feature dictionaries are modelled as String → Option ℝ; the weight
  dictionary as an association list (iteration order of the Python dict).
  Machine floats are modelled as reals so the logistic exp is exact.
  ===========================================================================
-/

structure SiteRiskModel where
  weights : List (String × ℝ)
  bias : ℝ
  version : String

/-- The logistic transform 1 / (1 + exp(-x)) used by the loaded-weights
path. -/
noncomputable def sigmoid (x : ℝ) : ℝ := 1 / (1 + Real.exp (-x))

/-- The linear part of the loaded-weights path: bias plus the weighted sum
over the weight keys, reading a missing (or falsy) feature value as 0.0
(float(features.get(key) or 0.0)). -/
noncomputable def linearCombination (m : SiteRiskModel)
    (features : String → Option ℝ) : ℝ :=
  m.bias + (m.weights.map (fun kw => kw.2 * ((features kw.1).getD 0))).sum

structure PredictResult where
  score : ℝ
  reasoning : String
  modelVersion : String

/-- Embedding of SiteRiskModel.predict: if the weight dictionary is
non-empty, apply the sigmoid to the linear combination; otherwise apply the
fallback heuristic over ndvi_mean, rainfall_mean, temp_mean and soil_index;
finally clamp to [0,1]. -/
noncomputable def predict (m : SiteRiskModel) (features : String → Option ℝ) :
    PredictResult :=
  let score : ℝ :=
    if m.weights ≠ [] then
      sigmoid (linearCombination m features)
    else
      let ndviMean := features "ndvi_mean"
      let rainfall := features "rainfall_mean"
      let temp := features "temp_mean"
      let soilIndex := features "soil_index"
      let deltaNdvi : ℝ := match ndviMean with
        | none => 0
        | some v => 0.5 - v
      let deltaRain : ℝ := match rainfall with
        | none => 0
        | some v => v / 100
      let deltaTemp : ℝ := match temp with
        | none => 0
        | some v => (min v 40 - 20) / 40
      let base := 0.5 + 0.2 * deltaNdvi + 0.1 * deltaRain + 0.1 * deltaTemp
      match soilIndex with
      | none => base
      | some s => base + 0.1 * s
  let reasoning :=
    if m.weights ≠ [] then "Loaded model weights used."
    else "Fallback heuristic combining NDVI/rain/temp."
  { score := max 0 (min 1 score)
    reasoning := reasoning
    modelVersion := m.version }

lemma sigmoid_pos (x : ℝ) : 0 < sigmoid x := by
  unfold sigmoid
  positivity

lemma sigmoid_lt_one (x : ℝ) : sigmoid x < 1 := by
  unfold sigmoid
  rw [div_lt_one (by positivity)]
  have := Real.exp_pos (-x)
  linarith

/-- C9: with a non-empty weight dictionary, predict returns exactly the
logistic sigmoid of bias + sum of weight_i * feature_i (missing features
read as 0.0 inside linearCombination); the returned score lies in [0,1];
and the result reports the loaded-model path, distinguishing it from the
fallback heuristic. -/
theorem predict_loaded_model_sigmoid_in_unit_interval (m : SiteRiskModel)
    (features : String → Option ℝ) (hw : m.weights ≠ []) :
    (predict m features).score = sigmoid (linearCombination m features)
    ∧ 0 ≤ (predict m features).score ∧ (predict m features).score ≤ 1
    ∧ (predict m features).score =
        (predict m (fun k => some ((features k).getD 0))).score
    ∧ (predict m features).reasoning = "Loaded model weights used." := by
  have hpos := sigmoid_pos (linearCombination m features)
  have hlt := sigmoid_lt_one (linearCombination m features)
  have hs : ∀ g : String → Option ℝ, (predict m g).score =
      sigmoid (linearCombination m g) := by
    intro g
    have hp := sigmoid_pos (linearCombination m g)
    have hl := sigmoid_lt_one (linearCombination m g)
    simp only [predict, if_pos hw]
    rw [min_eq_right (le_of_lt hl), max_eq_right (le_of_lt hp)]
  have hzero : linearCombination m (fun k => some ((features k).getD 0)) =
      linearCombination m features := by
    simp [linearCombination]
  refine ⟨hs features, ?_, ?_, ?_, ?_⟩
  · rw [hs features]; exact le_of_lt hpos
  · rw [hs features]; exact le_of_lt hlt
  · rw [hs features, hs (fun k => some ((features k).getD 0)), hzero]
  · simp [predict, if_pos hw]

/-- Concrete model and empty feature set for the C9 witness. -/
noncomputable def witnessModel : SiteRiskModel :=
  { weights := [("ndvi_mean", 1)], bias := 0, version := "site-risk-stub-v1" }

/-- Witness for C9: at a one-weight model and an all-missing feature set the
linear combination is 0, the score is sigmoid 0 = 1/2, inside [0,1], and
the loaded-model path is reported. -/
theorem predict_loaded_model_witness :
    witnessModel.weights ≠ [] ∧
    (predict witnessModel (fun _ => none)).score = 1 / 2 ∧
    0 ≤ (predict witnessModel (fun _ => none)).score ∧
    (predict witnessModel (fun _ => none)).reasoning = "Loaded model weights used." := by
  have h := predict_loaded_model_sigmoid_in_unit_interval witnessModel
    (fun _ => none) (by simp [witnessModel])
  have hlin : linearCombination witnessModel (fun _ => none) = 0 := by
    simp [linearCombination, witnessModel]
  have hsig : sigmoid (0:ℝ) = 1 / 2 := by
    rw [sigmoid, neg_zero, Real.exp_zero]
    norm_num
  refine ⟨by simp [witnessModel], ?_, h.2.1, h.2.2.2.2⟩
  rw [h.1, hlin, hsig]

end TowerGuard
